import Mathlib

/-!
Verification development for the space-mission agent repository.

The definitions below are a shallow embedding of the Python sources:
`state_manager.py` (the state store), `local_tools.py` (the collision
threat scanner), `agent_graph.py` (the staged pipeline) and
`main_agent.py` (the orchestrator).  Python floats are modelled as
rationals, Python dictionaries as insertion-ordered association lists,
and wall-clock / random inputs as explicit environment parameters.
-/

/-- Dynamic (duck-typed) values stored in Python dictionaries.  Scalar
constructors cover the value shapes the program actually stores in
entity dictionaries: strings, native numbers, booleans, `None`, and
numpy integer scalars (`np.int64`, produced by `np.random.randint`) —
kept distinct from native numbers because `np.int64` is not a subclass
of `int` and is therefore not JSON-serializable, unlike `np.float64`,
which subclasses `float`. -/
inductive Val where
  | str (s : String)
  | num (q : ℚ)
  | bool (b : Bool)
  | nullv
  | npint (n : Int)
deriving DecidableEq, Repr

/-- A Python dictionary with string keys, modelled as an insertion-ordered
association list (CPython dictionaries preserve insertion order). -/
def Dict := List (String × Val)
deriving DecidableEq, Repr

/-- Python `d.get(k)` / `d.get(k, default)` without the default: the first
binding of the key, if any.  Keys are unique in dictionaries built by the
code below because `dictSet` replaces in place. -/
def dictGet (d : Dict) (k : String) : Option Val :=
  match d.find? (fun kv => kv.1 = k) with
  | some kv => some kv.2
  | none => none

/-- Python `d[k] = v`: replace the value in place if the key is present
(keeping its position), otherwise append the new binding at the end. -/
def dictSet (d : Dict) (k : String) (v : Val) : Dict :=
  match d with
  | [] => [(k, v)]
  | (k', v') :: rest =>
      if k' = k then (k', v) :: rest else (k', v') :: dictSet rest k v

/-- Python `d.update(u)`: set every binding of `u` into `d`, in order. -/
def dictUpdate (d u : Dict) : Dict :=
  u.foldl (fun acc kv => dictSet acc kv.1 kv.2) d

/-- Python truthiness of a value (`bool(v)`), as used by
`not alert.get("resolved", False)`. -/
def Val.truthy : Val → Bool
  | .str s => s ≠ ""
  | .num q => q ≠ 0
  | .bool b => b
  | .nullv => false
  | .npint n => n ≠ 0

/-- The value a dictionary entry contributes to the `json.dumps(...,
default=str)` document of `export_state`: JSON-native values pass
through unchanged, while a non-serializable `np.int64` scalar hits the
`default=str` fallback and is rendered as its decimal string (`str` of
a numpy integer), which `json.loads` then returns as a plain string. -/
def Val.jsonVal : Val → Val
  | .npint n => .str (toString n)
  | v => v

/-- Apply the `default=str` serialization fallback to every value of a
dictionary. -/
def dictJson (d : Dict) : Dict := d.map (fun kv => (kv.1, kv.2.jsonVal))

/-- Apply the `default=str` serialization fallback to a collection of
dictionaries. -/
def dictsJson (l : List Dict) : List Dict := l.map dictJson

/-- Mission phases (`MissionPhase` enum in `state_manager.py`). -/
inductive MissionPhase where
  | initialization
  | orbital_calculation
  | constellation_management
  | collision_monitoring
  | mission_planning
  | ground_coordination
  | maintenance_analysis
  | debris_monitoring
  | completed
  | error
deriving DecidableEq, Repr

/-- The canonical string tag of a phase (`MissionPhase.<X>.value`). -/
def MissionPhase.value : MissionPhase → String
  | .initialization => "initialization"
  | .orbital_calculation => "orbital_calculation"
  | .constellation_management => "constellation_management"
  | .collision_monitoring => "collision_monitoring"
  | .mission_planning => "mission_planning"
  | .ground_coordination => "ground_coordination"
  | .maintenance_analysis => "maintenance_analysis"
  | .debris_monitoring => "debris_monitoring"
  | .completed => "completed"
  | .error => "error"

/-- The dynamically-typed `state["mission_phase"]` slot: the store writes
`MissionPhase` enum members into it, but `import_state` writes the raw
string parsed from JSON. -/
inductive PhaseVal where
  | enum (p : MissionPhase)
  | raw (s : String)
deriving DecidableEq, Repr

/-- Alert severity levels (`AlertLevel` enum). -/
inductive AlertLevel where
  | info
  | warning
  | high
  | critical
deriving DecidableEq, Repr

/-- Canonical tag of an alert level (`AlertLevel.<X>.value`). -/
def AlertLevel.value : AlertLevel → String
  | .info => "info"
  | .warning => "warning"
  | .high => "high"
  | .critical => "critical"

/-- Satellite operational status (`SatelliteStatus` enum). -/
inductive SatelliteStatus where
  | active
  | standby
  | maintenance
  | offline
  | emergency
deriving DecidableEq, Repr

/-- Canonical tag of a satellite status. -/
def SatelliteStatus.value : SatelliteStatus → String
  | .active => "active"
  | .standby => "standby"
  | .maintenance => "maintenance"
  | .offline => "offline"
  | .emergency => "emergency"

/-- The `Satellite` dataclass of `state_manager.py`. -/
structure Satellite where
  id : String
  name : String
  type : String
  status : SatelliteStatus
  altitude : ℚ
  inclination : ℚ
  longitude : ℚ
  latitude : ℚ
  velocity : ℚ
  battery_level : ℚ
  signal_strength : ℚ
  temperature : ℚ
  power_consumption : ℚ
  data_throughput : ℚ
  last_contact : String
  health_score : ℚ
  maintenance_due : Bool
  collision_risk : ℚ
deriving DecidableEq, Repr

/-- The dictionary `add_satellite` appends: `asdict(satellite)` (fields in
declaration order) with `status` replaced by its canonical tag. -/
def Satellite.toDict (s : Satellite) : Dict :=
  [ ("id", .str s.id)
  , ("name", .str s.name)
  , ("type", .str s.type)
  , ("status", .str s.status.value)
  , ("altitude", .num s.altitude)
  , ("inclination", .num s.inclination)
  , ("longitude", .num s.longitude)
  , ("latitude", .num s.latitude)
  , ("velocity", .num s.velocity)
  , ("battery_level", .num s.battery_level)
  , ("signal_strength", .num s.signal_strength)
  , ("temperature", .num s.temperature)
  , ("power_consumption", .num s.power_consumption)
  , ("data_throughput", .num s.data_throughput)
  , ("last_contact", .str s.last_contact)
  , ("health_score", .num s.health_score)
  , ("maintenance_due", .bool s.maintenance_due)
  , ("collision_risk", .num s.collision_risk) ]

/-- The `Alert` dataclass of `state_manager.py`. -/
structure Alert where
  alert_id : String
  type : String
  level : AlertLevel
  message : String
  satellite_id : Option String
  timestamp : String
  acknowledged : Bool
  resolved : Bool
deriving DecidableEq, Repr

/-- The dictionary `add_alert` appends: `asdict(alert)` with `level`
replaced by its canonical tag. -/
def Alert.toDict (a : Alert) : Dict :=
  [ ("alert_id", .str a.alert_id)
  , ("type", .str a.type)
  , ("level", .str a.level.value)
  , ("message", .str a.message)
  , ("satellite_id", match a.satellite_id with
                     | some s => .str s
                     | none => .nullv)
  , ("timestamp", .str a.timestamp)
  , ("acknowledged", .bool a.acknowledged)
  , ("resolved", .bool a.resolved) ]

/-- The `SpaceMissionState` TypedDict owned by `StateManager`, one Lean
field per key.  `mission_phase` is dynamically typed (see `PhaseVal`);
entity collections hold plain dictionaries, exactly as the Python code
stores `asdict(...)` results. -/
structure StoreState where
  mission_id : String
  mission_name : String
  mission_phase : PhaseVal
  start_time : String
  last_update : String
  satellites : List Dict
  satellite_count : Nat
  orbital_data : List Dict
  trajectory_predictions : List Dict
  collision_threats : List Dict
  avoidance_maneuvers : List Dict
  mission_plan : Dict
  objectives : List String
  timeline : Dict
  resources : Dict
  ground_stations : List Dict
  communication_links : List Dict
  maintenance_schedule : Dict
  maintenance_tasks : List Dict
  health_monitoring : Dict
  space_debris : List Dict
  debris_threats : List Dict
  alerts : List Dict
  decisions : List Dict
  performance_metrics : Dict
  system_health : Dict
  errors : List Dict
  recovery_actions : List Dict
deriving DecidableEq, Repr

/-- `StateManager._initialize_state`: fresh state.  The generated
`uuid4()` mission id and the `datetime.now()` creation time are
environment inputs and appear as parameters. -/
def initialState (missionId now : String) : StoreState :=
  { mission_id := missionId
  , mission_name := "Autonomous Space Mission"
  , mission_phase := .enum .initialization
  , start_time := now
  , last_update := now
  , satellites := []
  , satellite_count := 0
  , orbital_data := []
  , trajectory_predictions := []
  , collision_threats := []
  , avoidance_maneuvers := []
  , mission_plan := []
  , objectives := []
  , timeline := []
  , resources := []
  , ground_stations := []
  , communication_links := []
  , maintenance_schedule := []
  , maintenance_tasks := []
  , health_monitoring := []
  , space_debris := []
  , debris_threats := []
  , alerts := []
  , decisions := []
  , performance_metrics := []
  , system_health := []
  , errors := []
  , recovery_actions := [] }

/-- `StateManager.update_mission_phase`. -/
def updateMissionPhase (s : StoreState) (p : MissionPhase) (now : String) :
    StoreState :=
  { s with mission_phase := .enum p, last_update := now }

/-- `StateManager.add_satellite`: unconditionally appends the satellite
dictionary, recomputes `satellite_count` as the new collection length and
refreshes `last_update`.  There is no duplicate-id check in the source. -/
def addSatellite (s : StoreState) (sat : Satellite) (now : String) :
    StoreState :=
  let sats := s.satellites ++ [sat.toDict]
  { s with satellites := sats
         , satellite_count := sats.length
         , last_update := now }

/-- Body of the `for ... if ... break` loop of `update_satellite`: merge
the updates into the first dictionary whose `"id"` equals the target and
stamp its `"last_contact"`; leave everything else (including later
matches) unchanged.  If nothing matches, the list is returned as is. -/
def updateFirstSat (sats : List Dict) (satelliteId : String) (updates : Dict)
    (now : String) : List Dict :=
  match sats with
  | [] => []
  | sat :: rest =>
      if dictGet sat "id" = some (.str satelliteId) then
        dictSet (dictUpdate sat updates) "last_contact" (.str now) :: rest
      else
        sat :: updateFirstSat rest satelliteId updates now

/-- `StateManager.update_satellite`: merge into the first matching
satellite (if any) and refresh `last_update`; a missing id is silently
ignored — the loop simply finds no match and the method returns. -/
def updateSatellite (s : StoreState) (satelliteId : String) (updates : Dict)
    (now : String) : StoreState :=
  { s with satellites := updateFirstSat s.satellites satelliteId updates now
         , last_update := now }

/-- `StateManager.add_orbital_data` (the argument is the `asdict` of the
`OrbitalData` dataclass). -/
def addOrbitalData (s : StoreState) (d : Dict) (now : String) : StoreState :=
  { s with orbital_data := s.orbital_data ++ [d], last_update := now }

/-- `StateManager.add_collision_threat` (argument: `asdict(threat)`). -/
def addCollisionThreat (s : StoreState) (d : Dict) (now : String) :
    StoreState :=
  { s with collision_threats := s.collision_threats ++ [d]
         , last_update := now }

/-- `StateManager.add_ground_station` (argument: `asdict(station)`). -/
def addGroundStation (s : StoreState) (d : Dict) (now : String) : StoreState :=
  { s with ground_stations := s.ground_stations ++ [d], last_update := now }

/-- `StateManager.add_space_debris` (argument: `asdict(debris)`). -/
def addSpaceDebris (s : StoreState) (d : Dict) (now : String) : StoreState :=
  { s with space_debris := s.space_debris ++ [d], last_update := now }

/-- `StateManager.add_maintenance_task` (argument: `asdict(task)`). -/
def addMaintenanceTask (s : StoreState) (d : Dict) (now : String) :
    StoreState :=
  { s with maintenance_tasks := s.maintenance_tasks ++ [d]
         , last_update := now }

/-- `StateManager.add_alert`: appends `asdict(alert)` with the level tag. -/
def addAlert (s : StoreState) (a : Alert) (now : String) : StoreState :=
  { s with alerts := s.alerts ++ [a.toDict], last_update := now }

/-- `StateManager.add_decision` (argument: `asdict(decision)`). -/
def addDecision (s : StoreState) (d : Dict) (now : String) : StoreState :=
  { s with decisions := s.decisions ++ [d], last_update := now }

/-- `StateManager.update_performance_metrics`. -/
def updatePerformanceMetrics (s : StoreState) (m : Dict) (now : String) :
    StoreState :=
  { s with performance_metrics := dictUpdate s.performance_metrics m
         , last_update := now }

/-- `StateManager.update_system_health`. -/
def updateSystemHealth (s : StoreState) (h : Dict) (now : String) :
    StoreState :=
  { s with system_health := dictUpdate s.system_health h
         , last_update := now }

/-- `StateManager.get_active_alerts`: keep the alerts whose `"resolved"`
entry (defaulting to `False` when the key is absent) is not truthy. -/
def getActiveAlerts (s : StoreState) : List Dict :=
  s.alerts.filter
    (fun alert => !((dictGet alert "resolved").getD (.bool false)).truthy)

/-- One mutating call of the store's public add/update API, used to state
properties over arbitrary operation sequences.  Entity arguments other
than `Satellite`/`Alert` are the already-converted `asdict` dictionaries. -/
inductive StoreOp where
  | addSatellite (sat : Satellite)
  | updateSatellite (satelliteId : String) (updates : Dict)
  | updateMissionPhase (p : MissionPhase)
  | addOrbitalData (d : Dict)
  | addCollisionThreat (d : Dict)
  | addGroundStation (d : Dict)
  | addSpaceDebris (d : Dict)
  | addMaintenanceTask (d : Dict)
  | addAlert (a : Alert)
  | addDecision (d : Dict)
  | updatePerformanceMetrics (m : Dict)
  | updateSystemHealth (h : Dict)

/-- Apply one store operation at a given wall-clock reading. -/
def applyOp (s : StoreState) : StoreOp × String → StoreState
  | (.addSatellite sat, now) => addSatellite s sat now
  | (.updateSatellite i u, now) => updateSatellite s i u now
  | (.updateMissionPhase p, now) => updateMissionPhase s p now
  | (.addOrbitalData d, now) => addOrbitalData s d now
  | (.addCollisionThreat d, now) => addCollisionThreat s d now
  | (.addGroundStation d, now) => addGroundStation s d now
  | (.addSpaceDebris d, now) => addSpaceDebris s d now
  | (.addMaintenanceTask d, now) => addMaintenanceTask s d now
  | (.addAlert a, now) => addAlert s a now
  | (.addDecision d, now) => addDecision s d now
  | (.updatePerformanceMetrics m, now) => updatePerformanceMetrics s m now
  | (.updateSystemHealth h, now) => updateSystemHealth s h now

/-- Apply a sequence of store operations (each with its timestamp). -/
def applyOps (s : StoreState) (ops : List (StoreOp × String)) : StoreState :=
  ops.foldl applyOp s

/-- The top-level JSON document produced by `export_state`: a copy of the
state with `mission_phase` replaced by its canonical string tag.  Keys and
value shapes are otherwise those of `StoreState`, and `json.dumps` /
`json.loads` round-trip them unchanged. -/
structure ExportedState where
  mission_id : String
  mission_name : String
  mission_phase : String
  start_time : String
  last_update : String
  satellites : List Dict
  satellite_count : Nat
  orbital_data : List Dict
  trajectory_predictions : List Dict
  collision_threats : List Dict
  avoidance_maneuvers : List Dict
  mission_plan : Dict
  objectives : List String
  timeline : Dict
  resources : Dict
  ground_stations : List Dict
  communication_links : List Dict
  maintenance_schedule : Dict
  maintenance_tasks : List Dict
  health_monitoring : Dict
  space_debris : List Dict
  debris_threats : List Dict
  alerts : List Dict
  decisions : List Dict
  performance_metrics : Dict
  system_health : Dict
  errors : List Dict
  recovery_actions : List Dict
deriving DecidableEq, Repr

/-- `StateManager.export_state`: copy the state, replace `mission_phase`
by `self.state["mission_phase"].value` and render the document with
`json.dumps(export_data, indent=2, default=str)` — so every value that
is not JSON-native (the `np.int64` telemetry scalars the pipeline writes
into satellite dictionaries) is stringified by the `default=str`
fallback, modelled by `Val.jsonVal` applied throughout.  When the phase
slot holds a raw string (as it does after an import), the attribute
access `.value` raises, which the model reports as `none`. -/
def exportState (s : StoreState) : Option ExportedState :=
  match s.mission_phase with
  | .raw _ => none
  | .enum p => some
      { mission_id := s.mission_id
      , mission_name := s.mission_name
      , mission_phase := p.value
      , start_time := s.start_time
      , last_update := s.last_update
      , satellites := dictsJson s.satellites
      , satellite_count := s.satellite_count
      , orbital_data := dictsJson s.orbital_data
      , trajectory_predictions := dictsJson s.trajectory_predictions
      , collision_threats := dictsJson s.collision_threats
      , avoidance_maneuvers := dictsJson s.avoidance_maneuvers
      , mission_plan := dictJson s.mission_plan
      , objectives := s.objectives
      , timeline := dictJson s.timeline
      , resources := dictJson s.resources
      , ground_stations := dictsJson s.ground_stations
      , communication_links := dictsJson s.communication_links
      , maintenance_schedule := dictJson s.maintenance_schedule
      , maintenance_tasks := dictsJson s.maintenance_tasks
      , health_monitoring := dictJson s.health_monitoring
      , space_debris := dictsJson s.space_debris
      , debris_threats := dictsJson s.debris_threats
      , alerts := dictsJson s.alerts
      , decisions := dictsJson s.decisions
      , performance_metrics := dictJson s.performance_metrics
      , system_health := dictJson s.system_health
      , errors := dictsJson s.errors
      , recovery_actions := dictsJson s.recovery_actions }

/-- `StateManager.import_state`: `self.state.update(json.loads(data))`
replaces every top-level field with the parsed value (so `mission_phase`
becomes the raw tag string), then `last_update` is refreshed to now. -/
def importState (s : StoreState) (e : ExportedState) (now : String) :
    StoreState :=
  { s with
    mission_id := e.mission_id
  , mission_name := e.mission_name
  , mission_phase := .raw e.mission_phase
  , start_time := e.start_time
  , last_update := now
  , satellites := e.satellites
  , satellite_count := e.satellite_count
  , orbital_data := e.orbital_data
  , trajectory_predictions := e.trajectory_predictions
  , collision_threats := e.collision_threats
  , avoidance_maneuvers := e.avoidance_maneuvers
  , mission_plan := e.mission_plan
  , objectives := e.objectives
  , timeline := e.timeline
  , resources := e.resources
  , ground_stations := e.ground_stations
  , communication_links := e.communication_links
  , maintenance_schedule := e.maintenance_schedule
  , maintenance_tasks := e.maintenance_tasks
  , health_monitoring := e.health_monitoring
  , space_debris := e.space_debris
  , debris_threats := e.debris_threats
  , alerts := e.alerts
  , decisions := e.decisions
  , performance_metrics := e.performance_metrics
  , system_health := e.system_health
  , errors := e.errors
  , recovery_actions := e.recovery_actions }

/-- The round trip `import_state(export_state())` of the serialization
gateway (the import happens at wall-clock time `now`). -/
def roundTrip (s : StoreState) (now : String) : Option StoreState :=
  (exportState s).map (fun e => importState s e now)

namespace Tools

/-- The `Satellite` dataclass of `local_tools.py` (distinct from the state
manager's: `status` is a plain string and the telemetry fields differ). -/
structure Satellite where
  id : String
  name : String
  type : String
  altitude : ℚ
  inclination : ℚ
  longitude : ℚ
  latitude : ℚ
  velocity : ℚ
  status : String
  battery_level : ℚ
  signal_strength : ℚ
  last_contact : String
deriving DecidableEq, Repr

/-- The position part of `calculate_orbital_mechanics` at the default
`time_delta = 0.0` (the only way `detect_collision_threats` calls it):
the phase angle is `(2*pi*0/T) % (2*pi) = 0`, so `cos = 1`, `sin = 0` and
the position is `(r, 0, 0)` with `r = 6371 + altitude`.  The velocity
components involve `sqrt(398600.4418 / r)` and are not consumed by the
threat scanner, so they are omitted from the model. -/
def calcPosition (sat : Satellite) : ℚ × ℚ × ℚ :=
  (6371 + sat.altitude, 0, 0)

/-- Squared Euclidean distance between two positions.  The source compares
`sqrt(q) < 100` and `sqrt(q) < 50`; both sides being nonnegative, these
are equivalent to `q < 100^2` and `q < 50^2`, which is how the model
states threshold tests over rationals. -/
def sqDist (p q : ℚ × ℚ × ℚ) : ℚ :=
  (p.1 - q.1) ^ 2 + (p.2.1 - q.2.1) ^ 2 + (p.2.2 - q.2.2) ^ 2

/-- A collision threat record emitted by `detect_collision_threats`.  The
random `time_to_collision` draw and the timestamp are environment noise
not consumed by any property and are left out of the model. -/
structure Threat where
  threat_id : String
  satellites : List String
  distanceSq : ℚ
  risk_level : String
  avoidance_maneuver : String
deriving DecidableEq, Repr

/-- The threat dictionary built for a close pair: id `COLL-<id1>-<id2>` in
scan order, risk `HIGH` below 50 km and `MEDIUM` otherwise. -/
def mkThreat (sat1 sat2 : Satellite) (d2 : ℚ) : Threat :=
  { threat_id := "COLL-" ++ sat1.id ++ "-" ++ sat2.id
  , satellites := [sat1.id, sat2.id]
  , distanceSq := d2
  , risk_level := if d2 < 50 ^ 2 then "HIGH" else "MEDIUM"
  , avoidance_maneuver := "Required" }

/-- All ordered pairs `(xs[i], xs[j])` with `i < j`, in the order of the
nested loops `for i, sat1 in enumerate(...)` /
`for j, sat2 in enumerate(satellites[i+1:], i+1)`. -/
def pairsAfter {α : Type} : List α → List (α × α)
  | [] => []
  | x :: xs => xs.map (fun y => (x, y)) ++ pairsAfter xs

/-- `SpaceMissionTools.detect_collision_threats`: scan every pair `i < j`,
compute the distance between the two computed positions and emit a threat
when it is below the 100 km threshold. -/
def detectCollisionThreats (satellites : List Satellite) : List Threat :=
  (pairsAfter satellites).foldr
    (fun (p : Satellite × Satellite) acc =>
      let d2 := sqDist (calcPosition p.1) (calcPosition p.2)
      if d2 < 100 ^ 2 then mkThreat p.1 p.2 d2 :: acc else acc)
    []

end Tools

/-- A concrete satellite used to instantiate store properties. -/
def satAlpha : Satellite :=
  { id := "SAT-001"
  , name := "Communication Satellite Alpha"
  , type := "Communication"
  , status := .active
  , altitude := 400
  , inclination := 51
  , longitude := -180
  , latitude := 0
  , velocity := 7
  , battery_level := 85
  , signal_strength := 95
  , temperature := 20
  , power_consumption := 1000
  , data_throughput := 100
  , last_contact := "t0"
  , health_score := 95
  , maintenance_due := false
  , collision_risk := 0 }

/-- Merging into the satellite list leaves its length unchanged. -/
theorem updateFirstSat_length (sats : List Dict) (i : String) (u : Dict)
    (now : String) : (updateFirstSat sats i u now).length = sats.length := by
  induction sats with
  | nil => rfl
  | cons sat rest ih =>
      by_cases h : dictGet sat "id" = some (.str i) <;>
        simp [updateFirstSat, h, ih]

/-- When no satellite carries the target id, the merge loop finds no
match and returns the list unchanged. -/
theorem updateFirstSat_not_found (sats : List Dict) (i : String) (u : Dict)
    (now : String) (h : ∀ sat ∈ sats, dictGet sat "id" ≠ some (.str i)) :
    updateFirstSat sats i u now = sats := by
  induction sats with
  | nil => rfl
  | cons sat rest ih =>
      have h1 : dictGet sat "id" ≠ some (.str i) := h sat (by simp)
      simp only [updateFirstSat, if_neg h1]
      rw [ih (fun s hs => h s (by simp [hs]))]

/-- Every store operation preserves the count invariant. -/
theorem applyOp_count (s : StoreState) (op : StoreOp) (now : String)
    (h : s.satellite_count = s.satellites.length) :
    (applyOp s (op, now)).satellite_count =
      (applyOp s (op, now)).satellites.length := by
  cases op <;>
    simp [applyOp, addSatellite, updateSatellite, updateMissionPhase,
      addOrbitalData, addCollisionThreat, addGroundStation, addSpaceDebris,
      addMaintenanceTask, addAlert, addDecision, updatePerformanceMetrics,
      updateSystemHealth, updateFirstSat_length, h]

/-- C8: after any sequence of add and update operations on the state
store, `satellite_count` equals the length of the satellites collection. -/
theorem satellite_count_invariant (missionId t0 : String)
    (ops : List (StoreOp × String)) :
    (applyOps (initialState missionId t0) ops).satellite_count =
      (applyOps (initialState missionId t0) ops).satellites.length := by
  suffices h : ∀ (s : StoreState), s.satellite_count = s.satellites.length →
      (applyOps s ops).satellite_count = (applyOps s ops).satellites.length by
    exact h _ rfl
  induction ops with
  | nil => intro s hs; exact hs
  | cons op rest ih =>
      intro s hs
      exact ih _ (applyOp_count s op.1 op.2 (by simpa using hs))

/-- C2 counterexample: inserting a satellite whose id is already present
does not fail and does not leave the collection unchanged — the store
appends a second entry with the same id. -/
theorem addSatellite_duplicate_appends :
    (addSatellite (addSatellite (initialState "M" "t0") satAlpha "t1")
        satAlpha "t2").satellites.length = 2 ∧
    (addSatellite (initialState "M" "t0") satAlpha "t1").satellites.length
      = 1 := by
  constructor <;> rfl

/-- C2 amended: `addSatellite` performs no duplicate check — for every
state (in particular states already containing the id) it appends the
satellite dictionary, recomputes the count and refreshes `last_update`. -/
theorem addSatellite_always_appends (s : StoreState) (sat : Satellite)
    (now : String) :
    (addSatellite s sat now).satellites = s.satellites ++ [sat.toDict] ∧
    (addSatellite s sat now).satellite_count = s.satellites.length + 1 ∧
    (addSatellite s sat now).last_update = now := by
  refine ⟨rfl, ?_, rfl⟩
  simp [addSatellite]

/-- C3 counterexample: updating an id that is not in the collection does
not fail with `NotFound` — the call returns normally and the only change
to the store is the refreshed `last_update` (a silent no-op). -/
theorem updateSatellite_missing_noop :
    updateSatellite (addSatellite (initialState "M" "t0") satAlpha "t1")
        "SAT-404" [("battery_level", .num 50)] "t2" =
      { addSatellite (initialState "M" "t0") satAlpha "t1" with
        last_update := "t2" } := by
  decide

/-- C3 amended: for every id absent from the satellite collection,
`updateSatellite` silently no-ops — the satellite collection is unchanged
and only `last_update` is refreshed; no `NotFound` error is raised. -/
theorem updateSatellite_missing_silent (s : StoreState) (i : String)
    (u : Dict) (now : String)
    (h : ∀ sat ∈ s.satellites, dictGet sat "id" ≠ some (.str i)) :
    updateSatellite s i u now = { s with last_update := now } := by
  simp [updateSatellite, updateFirstSat_not_found s.satellites i u now h]

/-- Witness for the amended C3 at a concrete store and id. -/
theorem updateSatellite_missing_silent_witness :
    updateSatellite (addSatellite (initialState "M" "t0") satAlpha "t1")
        "SAT-404" [("battery_level", .num 50)] "t2" =
      { addSatellite (initialState "M" "t0") satAlpha "t1" with
        last_update := "t2" } :=
  updateSatellite_missing_silent _ "SAT-404" _ "t2" (by decide)

/-- C1 counterexample: at the concrete reachable state
`initialState "M" "t0"`, the round trip succeeds but the result differs
from the original state: `mission_phase` comes back as the raw string
`"initialization"` instead of the enum member, and `last_update` is
refreshed to the import time. -/
theorem roundTrip_not_identity :
    roundTrip (initialState "M" "t0") "t1" ≠
        some (initialState "M" "t0") ∧
    (roundTrip (initialState "M" "t0") "t1").isSome = true := by
  constructor
  · decide
  · rfl

/-- A state holding one satellite whose `battery_level` is an `np.int64`
scalar, as every satellite dictionary does after the pipeline's
satellite-management stage has run (`85 + np.random.randint(-10, 10)`).
Such states are reachable through the public API (a completed
`run_autonomous_mission()` leaves them in the store with the phase enum
COMPLETED). -/
def stateWithNpTelemetry : StoreState :=
  { initialState "M" "t0" with
    satellites := [[("id", Val.str "SAT-001"),
      ("battery_level", Val.npint 85)]]
  , satellite_count := 1 }

/-- C1 amended: for every state whose `mission_phase` slot holds an enum
member (every state not previously subjected to `import_state`), the
round trip `import(export(S))` reproduces `S` exactly in the scalar
metadata fields, but (a) `mission_phase` becomes the phase's canonical
string tag, (b) `last_update` is refreshed to the import time, and (c)
every value stored in the entity collections passes through the
`json.dumps(..., default=str)` fallback, which stringifies values that
are not JSON-native — in particular the `np.int64` battery/signal
scalars the pipeline writes into satellite dictionaries — while leaving
JSON-native values unchanged.  A collection field is therefore preserved
exactly when all of its values are JSON-native, which fails for
post-run states. -/
theorem roundTrip_json_coercion (s : StoreState) (p : MissionPhase)
    (now : String) (h : s.mission_phase = .enum p) :
    roundTrip s now = some
      { s with
        mission_phase := .raw p.value
      , last_update := now
      , satellites := dictsJson s.satellites
      , orbital_data := dictsJson s.orbital_data
      , trajectory_predictions := dictsJson s.trajectory_predictions
      , collision_threats := dictsJson s.collision_threats
      , avoidance_maneuvers := dictsJson s.avoidance_maneuvers
      , mission_plan := dictJson s.mission_plan
      , timeline := dictJson s.timeline
      , resources := dictJson s.resources
      , ground_stations := dictsJson s.ground_stations
      , communication_links := dictsJson s.communication_links
      , maintenance_schedule := dictJson s.maintenance_schedule
      , maintenance_tasks := dictsJson s.maintenance_tasks
      , health_monitoring := dictJson s.health_monitoring
      , space_debris := dictsJson s.space_debris
      , debris_threats := dictsJson s.debris_threats
      , alerts := dictsJson s.alerts
      , decisions := dictsJson s.decisions
      , performance_metrics := dictJson s.performance_metrics
      , system_health := dictJson s.system_health
      , errors := dictsJson s.errors
      , recovery_actions := dictsJson s.recovery_actions } := by
  simp [roundTrip, exportState, importState, h]

/-- Witness for the amended C1 at a state carrying an `np.int64`
battery value: the round trip stringifies it (`85` becomes `"85"`),
so the satellites field is not preserved either. -/
theorem roundTrip_json_coercion_witness :
    (roundTrip stateWithNpTelemetry "t1" = some
      { stateWithNpTelemetry with
        mission_phase := .raw MissionPhase.initialization.value
      , last_update := "t1"
      , satellites := dictsJson stateWithNpTelemetry.satellites
      , orbital_data := dictsJson stateWithNpTelemetry.orbital_data
      , trajectory_predictions :=
          dictsJson stateWithNpTelemetry.trajectory_predictions
      , collision_threats :=
          dictsJson stateWithNpTelemetry.collision_threats
      , avoidance_maneuvers :=
          dictsJson stateWithNpTelemetry.avoidance_maneuvers
      , mission_plan := dictJson stateWithNpTelemetry.mission_plan
      , timeline := dictJson stateWithNpTelemetry.timeline
      , resources := dictJson stateWithNpTelemetry.resources
      , ground_stations := dictsJson stateWithNpTelemetry.ground_stations
      , communication_links :=
          dictsJson stateWithNpTelemetry.communication_links
      , maintenance_schedule :=
          dictJson stateWithNpTelemetry.maintenance_schedule
      , maintenance_tasks :=
          dictsJson stateWithNpTelemetry.maintenance_tasks
      , health_monitoring :=
          dictJson stateWithNpTelemetry.health_monitoring
      , space_debris := dictsJson stateWithNpTelemetry.space_debris
      , debris_threats := dictsJson stateWithNpTelemetry.debris_threats
      , alerts := dictsJson stateWithNpTelemetry.alerts
      , decisions := dictsJson stateWithNpTelemetry.decisions
      , performance_metrics :=
          dictJson stateWithNpTelemetry.performance_metrics
      , system_health := dictJson stateWithNpTelemetry.system_health
      , errors := dictsJson stateWithNpTelemetry.errors
      , recovery_actions :=
          dictsJson stateWithNpTelemetry.recovery_actions }) ∧
    dictsJson stateWithNpTelemetry.satellites =
      [[("id", Val.str "SAT-001"), ("battery_level", Val.str "85")]] :=
  ⟨roundTrip_json_coercion stateWithNpTelemetry .initialization "t1" rfl,
    rfl⟩

/-- C10: membership in `getActiveAlerts` is exactly "the alert is stored
and its `resolved` field is absent or `False`" (for alerts whose
`resolved` entry, when present, is a boolean — the shape the store
writes). -/
theorem getActiveAlerts_spec (s : StoreState) (a : Dict)
    (hb : ∀ v, dictGet a "resolved" = some v → ∃ b, v = Val.bool b) :
    a ∈ getActiveAlerts s ↔
      a ∈ s.alerts ∧ dictGet a "resolved" ≠ some (.bool true) := by
  unfold getActiveAlerts
  rw [List.mem_filter]
  cases hres : dictGet a "resolved" with
  | none => simp [hres, Val.truthy]
  | some v =>
      obtain ⟨b, rfl⟩ := hb v hres
      cases b <;> simp [hres, Val.truthy]

/-- Witness for C10: an alert record lacking the `resolved` key is
treated as unresolved and returned by `getActiveAlerts`. -/
theorem getActiveAlerts_spec_witness :
    [("alert_id", Val.str "A1")] ∈
        getActiveAlerts { initialState "M" "t0" with
                          alerts := [[("alert_id", Val.str "A1")]] } ↔
      [("alert_id", Val.str "A1")] ∈
          ({ initialState "M" "t0" with
             alerts := [[("alert_id", Val.str "A1")]] } : StoreState).alerts ∧
        dictGet [("alert_id", Val.str "A1")] "resolved" ≠
          some (.bool true) :=
  getActiveAlerts_spec _ _ (by intro v h; simp [dictGet] at h)

/-- A concrete scanner satellite at a given id and altitude (the other
telemetry fields do not influence the computed position). -/
def toolSat (i : String) (alt : ℚ) : Tools.Satellite :=
  { id := i
  , name := i
  , type := "Communication"
  , altitude := alt
  , inclination := 51
  , longitude := 0
  , latitude := 0
  , velocity := 7
  , status := "Active"
  , battery_level := 85
  , signal_strength := 95
  , last_contact := "t0" }

/-- C6: with the hard-coded 50/100 km thresholds, a pair at distance
49.999 km is classified HIGH, a pair at distance 50.001 km is classified
MEDIUM, and a pair at distance 100.001 km produces no threat.  The
distances arise from altitude differences, since positions at the default
`time_delta = 0` are `(6371 + altitude, 0, 0)`. -/
theorem threat_classification_boundary :
    (Tools.detectCollisionThreats
        [toolSat "A" 400, toolSat "B" (400 + 49999 / 1000)]).map
      Tools.Threat.risk_level = ["HIGH"] ∧
    (Tools.detectCollisionThreats
        [toolSat "A" 400, toolSat "C" (400 + 50001 / 1000)]).map
      Tools.Threat.risk_level = ["MEDIUM"] ∧
    Tools.detectCollisionThreats
        [toolSat "A" 400, toolSat "D" (400 + 100001 / 1000)] = [] := by
  refine ⟨?_, ?_, ?_⟩ <;>
    norm_num [Tools.detectCollisionThreats, Tools.pairsAfter, Tools.sqDist,
      Tools.calcPosition, Tools.mkThreat, toolSat]

/-- Squared distance is symmetric in its two endpoints. -/
theorem Tools.sqDist_comm (p q : ℚ × ℚ × ℚ) :
    Tools.sqDist p q = Tools.sqDist q p := by
  unfold Tools.sqDist; ring

/-- C7 counterexample: for the same two close satellites, scanning the
list in the two insertion orders yields one threat each, but the threat
ids differ (`COLL-SAT-A-SAT-B` versus `COLL-SAT-B-SAT-A`), so the id
derived from the pair is not order-independent. -/
theorem threat_id_depends_on_order :
    (Tools.detectCollisionThreats
        [toolSat "SAT-A" 400, toolSat "SAT-B" 410]).map
      Tools.Threat.threat_id = ["COLL-SAT-A-SAT-B"] ∧
    (Tools.detectCollisionThreats
        [toolSat "SAT-B" 410, toolSat "SAT-A" 400]).map
      Tools.Threat.threat_id = ["COLL-SAT-B-SAT-A"] ∧
    ("COLL-SAT-A-SAT-B" : String) ≠ "COLL-SAT-B-SAT-A" := by
  refine ⟨?_, ?_, by decide⟩ <;>
    · norm_num [Tools.detectCollisionThreats, Tools.pairsAfter,
        Tools.sqDist, Tools.calcPosition, Tools.mkThreat, toolSat]
      rfl

/-- C7 amended: for any two satellites within the proximity threshold the
scanner emits exactly one CollisionThreat for the pair in either
insertion order, but the threat id is `COLL-<first>-<second>` in list
order, so the two orders produce threats whose ids swap the two
satellite ids rather than one common pair-order-independent id. -/
theorem detect_pair_both_orders (a b : Tools.Satellite)
    (h : Tools.sqDist (Tools.calcPosition a) (Tools.calcPosition b) <
      100 ^ 2) :
    Tools.detectCollisionThreats [a, b] =
      [Tools.mkThreat a b
        (Tools.sqDist (Tools.calcPosition a) (Tools.calcPosition b))] ∧
    Tools.detectCollisionThreats [b, a] =
      [Tools.mkThreat b a
        (Tools.sqDist (Tools.calcPosition b) (Tools.calcPosition a))] ∧
    (Tools.mkThreat a b
        (Tools.sqDist (Tools.calcPosition a)
          (Tools.calcPosition b))).threat_id =
      "COLL-" ++ a.id ++ "-" ++ b.id ∧
    (Tools.mkThreat b a
        (Tools.sqDist (Tools.calcPosition b)
          (Tools.calcPosition a))).threat_id =
      "COLL-" ++ b.id ++ "-" ++ a.id := by
  have h' : Tools.sqDist (Tools.calcPosition b) (Tools.calcPosition a) <
      100 ^ 2 := by rw [Tools.sqDist_comm]; exact h
  refine ⟨?_, ?_, rfl, rfl⟩ <;>
    simp [Tools.detectCollisionThreats, Tools.pairsAfter, h, h']

/-- Witness for the amended C7 at two concrete close satellites. -/
theorem detect_pair_both_orders_witness :
    Tools.detectCollisionThreats [toolSat "SAT-A" 400, toolSat "SAT-B" 410]
        = [Tools.mkThreat (toolSat "SAT-A" 400) (toolSat "SAT-B" 410)
            (Tools.sqDist (Tools.calcPosition (toolSat "SAT-A" 400))
              (Tools.calcPosition (toolSat "SAT-B" 410)))] ∧
      Tools.detectCollisionThreats
          [toolSat "SAT-B" 410, toolSat "SAT-A" 400]
        = [Tools.mkThreat (toolSat "SAT-B" 410) (toolSat "SAT-A" 400)
            (Tools.sqDist (Tools.calcPosition (toolSat "SAT-B" 410))
              (Tools.calcPosition (toolSat "SAT-A" 400)))] ∧
      (Tools.mkThreat (toolSat "SAT-A" 400) (toolSat "SAT-B" 410)
        (Tools.sqDist (Tools.calcPosition (toolSat "SAT-A" 400))
          (Tools.calcPosition (toolSat "SAT-B" 410)))).threat_id =
        "COLL-" ++ (toolSat "SAT-A" 400).id ++ "-" ++
          (toolSat "SAT-B" 410).id ∧
      (Tools.mkThreat (toolSat "SAT-B" 410) (toolSat "SAT-A" 400)
        (Tools.sqDist (Tools.calcPosition (toolSat "SAT-B" 410))
          (Tools.calcPosition (toolSat "SAT-A" 400)))).threat_id =
        "COLL-" ++ (toolSat "SAT-B" 410).id ++ "-" ++
          (toolSat "SAT-A" 400).id :=
  detect_pair_both_orders (toolSat "SAT-A" 400) (toolSat "SAT-B" 410)
    (by norm_num [Tools.sqDist, Tools.calcPosition, toolSat])

namespace SM

/-- Reference-semantics view of the state used to reason about
`save_state_snapshot`.  In CPython, `self.state` is a dictionary whose
`"satellites"` entry is a reference to a list object; `dict.copy()`
duplicates the top-level entries but shares those referenced objects.
The model makes the heap explicit: `satellites` is an index into a heap
of list objects.  Fields irrelevant to the snapshot claims follow the
same top-level-copy semantics and are represented by the scalar ones
below. -/
structure RefState where
  satellites : Nat
  satellite_count : Nat
  mission_phase : PhaseVal
  last_update : String
deriving DecidableEq, Repr

/-- A `StateManager` instance: the heap of list objects, the live state,
the snapshot history and `max_history_size` (set to 100 in `__init__`). -/
structure Mgr where
  heap : List (List Dict)
  state : RefState
  state_history : List RefState
  max_history_size : Nat
deriving DecidableEq, Repr

/-- Dereference a satellite-list object. -/
def lookupRef (m : Mgr) (r : Nat) : List Dict := m.heap.getD r []

/-- `StateManager.__init__`: fresh state referencing a fresh empty list,
empty history, capacity 100. -/
def initMgr (now : String) : Mgr :=
  { heap := [[]]
  , state := { satellites := 0
             , satellite_count := 0
             , mission_phase := .enum .initialization
             , last_update := now }
  , state_history := []
  , max_history_size := 100 }

/-- `StateManager.save_state_snapshot`: `self.state.copy()` (a shallow
copy — the record is duplicated, the referenced list objects are not) is
appended to the history; if the history then exceeds
`max_history_size`, the oldest entry is popped (FIFO). -/
def saveStateSnapshot (m : Mgr) : Mgr :=
  let history := m.state_history ++ [m.state]
  { m with state_history :=
      if m.max_history_size < history.length then history.tail
      else history }

/-- `StateManager.add_satellite` in the reference model: the satellite
dictionary is appended to the shared list object in place (mutating every
holder of the reference), while `satellite_count` and `last_update` are
rebound on the live state only. -/
def addSatelliteRef (m : Mgr) (sat : Satellite) (now : String) : Mgr :=
  let lst := lookupRef m m.state.satellites ++ [sat.toDict]
  { m with heap := m.heap.set m.state.satellites lst
         , state := { m.state with satellite_count := lst.length
                                 , last_update := now } }

/-- Setting then reading the same heap index yields the written object. -/
theorem getD_set_self {α : Type} (l : List α) (i : Nat) (a d : α)
    (h : i < l.length) : (l.set i a).getD i d = a := by
  induction l generalizing i with
  | nil => simp at h
  | cons x xs ih =>
      cases i with
      | zero => rfl
      | succ n =>
          simpa [List.set, List.getD] using ih n (by simpa using h)

end SM

/-- C9 counterexample: take a snapshot of a state holding one satellite,
then add a second satellite.  The stored snapshot now dereferences to a
two-element satellite list (the live mutation leaked into it) while its
copied `satellite_count` still says 1 — so `snapshot()` is not a deep
copy and later mutations do alter stored snapshots. -/
theorem snapshot_not_deep_copy :
    (((SM.addSatelliteRef
          (SM.saveStateSnapshot (SM.addSatelliteRef (SM.initMgr "t0")
            satAlpha "t1"))
          satAlpha "t2").state_history.map
        (fun st => (SM.lookupRef
          (SM.addSatelliteRef
            (SM.saveStateSnapshot (SM.addSatelliteRef (SM.initMgr "t0")
              satAlpha "t1"))
            satAlpha "t2") st.satellites).length)) = [2]) ∧
    (((SM.saveStateSnapshot (SM.addSatelliteRef (SM.initMgr "t0")
          satAlpha "t1")).state_history.map
        (fun st => (SM.lookupRef
          (SM.saveStateSnapshot (SM.addSatelliteRef (SM.initMgr "t0")
            satAlpha "t1")) st.satellites).length)) = [1]) ∧
    (((SM.addSatelliteRef
          (SM.saveStateSnapshot (SM.addSatelliteRef (SM.initMgr "t0")
            satAlpha "t1"))
          satAlpha "t2").state_history.map
        (fun st => st.satellite_count)) = [1]) := by
  refine ⟨rfl, rfl, rfl⟩

/-- C9 amended: `snapshot()` appends a shallow copy of the current state
to a history of capacity 100, evicting the oldest entry (FIFO) when full,
so the history never exceeds 100 entries; but because the copy shares the
nested collection objects, a later in-place mutation of the live state
(such as adding a satellite) is visible through already stored snapshots,
while top-level scalar fields (such as `satellite_count`) keep their
snapshotted values. -/
theorem snapshot_shallow_bounded (m : SM.Mgr) (sat : Satellite)
    (now : String) (hm : m.max_history_size = 100)
    (hlen : m.state_history.length ≤ 100)
    (hr : m.state.satellites < m.heap.length) :
    (SM.saveStateSnapshot m).state_history.length ≤ 100 ∧
    (m.state_history.length = 100 →
      (SM.saveStateSnapshot m).state_history =
        m.state_history.tail ++ [m.state]) ∧
    ((SM.addSatelliteRef (SM.saveStateSnapshot m) sat
          now).state_history.getLast?).map
        (fun st => SM.lookupRef
          (SM.addSatelliteRef (SM.saveStateSnapshot m) sat now)
          st.satellites) =
      some (SM.lookupRef m m.state.satellites ++ [sat.toDict]) ∧
    ((SM.addSatelliteRef (SM.saveStateSnapshot m) sat
          now).state_history.getLast?).map (fun st => st.satellite_count) =
      some m.state.satellite_count := by
  have hlast : (SM.saveStateSnapshot m).state_history.getLast? =
      some m.state := by
    show (if m.max_history_size < (m.state_history ++ [m.state]).length
          then (m.state_history ++ [m.state]).tail
          else m.state_history ++ [m.state]).getLast? = some m.state
    by_cases hc : m.max_history_size <
        (m.state_history ++ [m.state]).length
    · rw [if_pos hc]
      have hne : m.state_history ≠ [] := by
        intro hnil
        rw [hnil] at hc
        simp [hm] at hc
      obtain ⟨x, xs, hx⟩ := List.exists_cons_of_ne_nil hne
      rw [hx]
      simp [List.getLast?_concat]
    · rw [if_neg hc]
      simp [List.getLast?_concat]
  have hhist : (SM.addSatelliteRef (SM.saveStateSnapshot m) sat
      now).state_history = (SM.saveStateSnapshot m).state_history := rfl
  refine ⟨?_, ?_, ?_, ?_⟩
  · show (if m.max_history_size < (m.state_history ++ [m.state]).length
          then (m.state_history ++ [m.state]).tail
          else m.state_history ++ [m.state]).length ≤ 100
    by_cases hc : m.max_history_size <
        (m.state_history ++ [m.state]).length
    · rw [if_pos hc]
      simpa [List.length_tail] using hlen
    · rw [if_neg hc]
      rw [hm] at hc
      simp only [List.length_append, List.length_cons,
        List.length_nil] at hc ⊢
      omega
  · intro hfull
    show (if m.max_history_size < (m.state_history ++ [m.state]).length
          then (m.state_history ++ [m.state]).tail
          else m.state_history ++ [m.state]) =
        m.state_history.tail ++ [m.state]
    have hc : m.max_history_size <
        (m.state_history ++ [m.state]).length := by
      simp only [List.length_append, List.length_cons, List.length_nil,
        hfull, hm]
      omega
    rw [if_pos hc]
    have hne : m.state_history ≠ [] := by
      intro hnil; rw [hnil] at hfull; simp at hfull
    obtain ⟨x, xs, hx⟩ := List.exists_cons_of_ne_nil hne
    rw [hx]
    rfl
  · rw [hhist, hlast]
    have h2 : SM.lookupRef
        (SM.addSatelliteRef (SM.saveStateSnapshot m) sat now)
        m.state.satellites =
        SM.lookupRef m m.state.satellites ++ [sat.toDict] := by
      show (m.heap.set m.state.satellites
          (m.heap.getD m.state.satellites [] ++
            [sat.toDict])).getD m.state.satellites [] =
        m.heap.getD m.state.satellites [] ++ [sat.toDict]
      exact SM.getD_set_self _ _ _ _ hr
    show some (SM.lookupRef
        (SM.addSatelliteRef (SM.saveStateSnapshot m) sat now)
        m.state.satellites) = _
    rw [h2]
  · rw [hhist, hlast]
    rfl

/-- Witness for the amended C9 at a concrete one-satellite manager. -/
theorem snapshot_shallow_bounded_witness :
    ((SM.saveStateSnapshot (SM.addSatelliteRef (SM.initMgr "t0")
        satAlpha "t1")).state_history.length ≤ 100) ∧
    ((SM.addSatelliteRef (SM.initMgr "t0")
        satAlpha "t1").state_history.length = 100 →
      (SM.saveStateSnapshot (SM.addSatelliteRef (SM.initMgr "t0")
          satAlpha "t1")).state_history =
        (SM.addSatelliteRef (SM.initMgr "t0")
          satAlpha "t1").state_history.tail ++
          [(SM.addSatelliteRef (SM.initMgr "t0") satAlpha "t1").state]) ∧
    ((SM.addSatelliteRef
          (SM.saveStateSnapshot (SM.addSatelliteRef (SM.initMgr "t0")
            satAlpha "t1"))
          satAlpha "t2").state_history.getLast?).map
        (fun st => SM.lookupRef
          (SM.addSatelliteRef
            (SM.saveStateSnapshot (SM.addSatelliteRef (SM.initMgr "t0")
              satAlpha "t1"))
            satAlpha "t2") st.satellites) =
      some (SM.lookupRef (SM.addSatelliteRef (SM.initMgr "t0")
          satAlpha "t1")
          (SM.addSatelliteRef (SM.initMgr "t0")
            satAlpha "t1").state.satellites ++ [satAlpha.toDict]) ∧
    ((SM.addSatelliteRef
          (SM.saveStateSnapshot (SM.addSatelliteRef (SM.initMgr "t0")
            satAlpha "t1"))
          satAlpha "t2").state_history.getLast?).map
        (fun st => st.satellite_count) =
      some (SM.addSatelliteRef (SM.initMgr "t0")
        satAlpha "t1").state.satellite_count :=
  snapshot_shallow_bounded
    (SM.addSatelliteRef (SM.initMgr "t0") satAlpha "t1") satAlpha "t2"
    rfl (by decide) (by decide)

/-- Environment inputs of a pipeline run: wall-clock readings and the
`np.random` draws, as indexed streams (one index per draw, in program
order). -/
structure Env where
  now : String
  nowPlusHours : Int → String
  randU : Nat → ℚ
  randZ : Nat → Int

/-- Per-satellite entry of the `orbital_data["satellites"]` list built by
the orbital-mechanics stage (values depend only on the enumeration
index). -/
structure OrbSat where
  id : Val
  altitude : ℚ
  velocity : ℚ
  period : ℚ
  inclination : ℚ
  longitude : ℚ
  latitude : ℚ

/-- Per-satellite entry of the `orbital_data["trajectories"]` list. -/
structure OrbTraj where
  satellite_id : Val
  position : List ℚ
  velocity : List ℚ
  acceleration : List ℚ

/-- The `orbital_data` dictionary assigned by the orbital-mechanics
stage.  `orbital_periods` and `velocity_vectors` are initialized empty
and never filled. -/
structure OrbitalBlock where
  timestamp : String
  satellites : List OrbSat
  trajectories : List OrbTraj
  orbital_periods : List ℚ
  velocity_vectors : List (List ℚ)

/-- A collision threat dictionary built by the graph's
collision-avoidance stage (note: its id uses the pair indices, not the
satellite ids). -/
structure GThreat where
  threat_id : String
  satellites : List Val
  distance : ℚ
  risk_level : String
  time_to_collision : ℚ
  avoidance_maneuver : String

/-- The `constellation_plan` dictionary of the satellite-management
stage. -/
structure ConstPlan where
  total_satellites : Nat
  coverage_area : String
  coverage_percentage : ℚ
  redundancy_level : String
  communication_latency : String
  data_throughput : String

/-- The `timeline` sub-dictionary of the mission plan. -/
structure MTimeline where
  start : String
  duration : String
  phases : List String

/-- The `resources` sub-dictionary of the mission plan. -/
structure MResources where
  satellites : Nat
  ground_stations : Nat
  bandwidth : String
  power : String

/-- The `success_metrics` sub-dictionary of the mission plan. -/
structure MSuccess where
  uptime : String
  coverage : String
  latency : String
  collision_risk : String

/-- The mission plan dictionary of the mission-planning stage. -/
structure MPlan where
  mission_id : String
  objectives : List String
  timeline : MTimeline
  resources : MResources
  success_metrics : MSuccess

/-- The dynamically-shaped `mission_plan` slot of the graph state: `{}`
initially, the constellation plan after stage 2, the mission plan after
stage 4. -/
inductive PlanVal where
  | empty
  | constellation (c : ConstPlan)
  | planned (p : MPlan)

/-- A ground-station dictionary of the ground-coordination stage. -/
structure GStation where
  id : String
  location : String
  coordinates : List ℚ
  status : String
  satellites_connected : Nat
  data_rate : String

/-- A space-debris dictionary of the debris-monitoring stage. -/
structure GDebris where
  id : String
  size : String
  velocity : String
  orbit : String
  threat_level : String
  tracking_accuracy : String

/-- A `maintenance_required` entry of the maintenance stage. -/
structure MaintReq where
  satellite_id : Val
  issue : String
  priority : String
  scheduled_time : String

/-- The `maintenance_schedule` dictionary (`predictions` is initialized
empty and never filled). -/
structure MaintSchedule where
  timestamp : String
  satellites_analyzed : Nat
  maintenance_required : List MaintReq
  predictions : List Dict

/-- A decision entry appended by each stage. -/
structure GDecision where
  agent : String
  timestamp : String
  decision : String
  confidence : ℚ

/-- An alert entry appended by the graph stages. -/
structure GAlert where
  type : String
  severity : String
  message : String
  timestamp : String

/-- The `SpaceMissionState` TypedDict of `agent_graph.py` (distinct from
the state manager's): the shared state threaded through the seven
pipeline stages. -/
structure GraphState where
  mission_id : String
  satellites : List Dict
  orbital_data : Option OrbitalBlock
  collision_threats : List GThreat
  mission_plan : PlanVal
  ground_stations : List GStation
  space_debris : List GDebris
  maintenance_schedule : Option MaintSchedule
  current_phase : String
  decisions : List GDecision
  alerts : List GAlert

/-- A graph state together with the positions of the next uniform (`u`)
and integer (`z`) random draws. -/
structure RunSt where
  g : GraphState
  u : Nat
  z : Nat

/-- The `orbital_data["satellites"]` entry for enumeration index `i`
(values `400 + i*50`, `7.5 + i*0.1`, `90 + i*5`, `51.6 + i*2`,
`-180 + i*20`, `i*5`; the id falls back to `SAT-<i+1>`). -/
def orbSatEntry (i : Nat) (satellite : Dict) : OrbSat :=
  { id := (dictGet satellite "id").getD
      (.str ("SAT-" ++ toString (i + 1)))
  , altitude := 400 + 50 * i
  , velocity := 15 / 2 + i / 10
  , period := 90 + 5 * i
  , inclination := 516 / 10 + 2 * i
  , longitude := -180 + 20 * i
  , latitude := 0 + 5 * i }

/-- The `orbital_data["trajectories"]` entry for enumeration index `i`. -/
def orbTrajEntry (i : Nat) (satellite : Dict) : OrbTraj :=
  { satellite_id := (dictGet satellite "id").getD
      (.str ("SAT-" ++ toString (i + 1)))
  , position := [400 + 50 * i, 0, 0]
  , velocity := [15 / 2 + i / 10, 0, 0]
  , acceleration := [0, 0, 0] }

/-- Stage 1, `orbital_mechanics_agent`: fills `orbital_data`, sets
`current_phase = "orbital_calculation"` (the only phase write in the
whole graph) and appends its decision. -/
def orbitalMechanicsAgent (env : Env) (r : RunSt) : RunSt :=
  let sats := r.g.satellites.enum
  let block : OrbitalBlock :=
    { timestamp := env.now
    , satellites := sats.map (fun p => orbSatEntry p.1 p.2)
    , trajectories := sats.map (fun p => orbTrajEntry p.1 p.2)
    , orbital_periods := []
    , velocity_vectors := [] }
  { r with g :=
      { r.g with
        orbital_data := some block
      , current_phase := "orbital_calculation"
      , decisions := r.g.decisions ++
          [{ agent := "orbital_mechanics"
           , timestamp := env.now
           , decision :=
               "Calculated optimal orbital trajectories for all satellites"
           , confidence := 95 / 100 }] } }

/-- The per-satellite mutation loop of the satellite-management stage:
status, random battery (`85 + randint(-10,10)`), random signal
(`95 + randint(-5,5)`) and contact time are set on every satellite;
two integer draws are consumed per satellite. -/
def manageSatsLoop (env : Env) : List Dict → Nat → List Dict × Nat
  | [], z => ([], z)
  | sat :: rest, z =>
      let sat1 := dictSet sat "status" (.str "Operational")
      let sat2 := dictSet sat1 "battery_level"
        (.npint (85 + env.randZ z))
      let sat3 := dictSet sat2 "signal_strength"
        (.npint (95 + env.randZ (z + 1)))
      let sat4 := dictSet sat3 "last_contact" (.str env.now)
      let res := manageSatsLoop env rest (z + 2)
      (sat4 :: res.1, res.2)

/-- Stage 2, `satellite_management_agent`: updates every satellite in
place, stores the constellation plan in `mission_plan` and appends its
decision.  The phase is not touched. -/
def satelliteManagementAgent (env : Env) (r : RunSt) : RunSt :=
  let plan : ConstPlan :=
    { total_satellites := r.g.satellites.length
    , coverage_area := "Global"
    , coverage_percentage := 998 / 10
    , redundancy_level := "High"
    , communication_latency := "< 50ms"
    , data_throughput := "10 Gbps" }
  let res := manageSatsLoop env r.g.satellites r.z
  { r with
    g := { r.g with
           satellites := res.1
         , mission_plan := .constellation plan
         , decisions := r.g.decisions ++
             [{ agent := "satellite_manager"
              , timestamp := env.now
              , decision :=
                  "Optimized constellation for maximum global coverage"
              , confidence := 92 / 100 }] }
  , z := res.2 }

/-- The pair loop of the graph's collision-avoidance stage: one uniform
draw per pair for the distance; a second draw (time-to-collision) only
when the 200 km threshold fires. -/
def collisionLoop (env : Env) :
    List ((Nat × Dict) × (Nat × Dict)) → Nat → List GThreat × Nat
  | [], u => ([], u)
  | ((i, sat1), (j, sat2)) :: rest, u =>
      let distance := env.randU u
      if distance < 200 then
        let t : GThreat :=
          { threat_id := "COLL-" ++ toString i ++ "-" ++ toString j
          , satellites := [(dictGet sat1 "id").getD .nullv,
              (dictGet sat2 "id").getD .nullv]
          , distance := distance
          , risk_level := if distance < 100 then "HIGH" else "MEDIUM"
          , time_to_collision := env.randU (u + 1)
          , avoidance_maneuver := "Required" }
        let res := collisionLoop env rest (u + 2)
        (t :: res.1, res.2)
      else
        let res := collisionLoop env rest (u + 1)
        (res.1, res.2)

/-- Stage 3, `collision_avoidance_agent`: replaces `collision_threats`,
appends one HIGH alert when any threat was found, and appends its
decision.  The phase is not touched. -/
def collisionAvoidanceAgent (env : Env) (r : RunSt) : RunSt :=
  let res := collisionLoop env (Tools.pairsAfter r.g.satellites.enum) r.u
  { r with
    g := { r.g with
           collision_threats := res.1
         , alerts :=
             if res.1.isEmpty then r.g.alerts
             else r.g.alerts ++
               [{ type := "COLLISION_RISK"
                , severity := "HIGH"
                , message := "Detected " ++ toString res.1.length ++
                    " collision threats"
                , timestamp := env.now }]
         , decisions := r.g.decisions ++
             [{ agent := "collision_avoidance"
              , timestamp := env.now
              , decision := "Analyzed collision risks: " ++
                  toString res.1.length ++ " threats detected"
              , confidence := 98 / 100 }] }
  , u := res.2 }

/-- Stage 4, `mission_planning_agent`: overwrites `mission_plan` with the
full plan and appends its decision.  The phase is not touched. -/
def missionPlanningAgent (env : Env) (r : RunSt) : RunSt :=
  let plan : MPlan :=
    { mission_id := r.g.mission_id
    , objectives :=
        [ "Maintain global satellite coverage"
        , "Prevent collision incidents"
        , "Optimize data transmission"
        , "Schedule maintenance operations" ]
    , timeline :=
        { start := env.now
        , duration := "24 hours"
        , phases :=
            ["Initialization", "Operation", "Maintenance", "Optimization"] }
    , resources :=
        { satellites := r.g.satellites.length
        , ground_stations := 5
        , bandwidth := "100 Gbps"
        , power := "Solar + Battery" }
    , success_metrics :=
        { uptime := "99.9%"
        , coverage := "99.8%"
        , latency := "< 50ms"
        , collision_risk := "< 0.1%" } }
  { r with g :=
      { r.g with
        mission_plan := .planned plan
      , decisions := r.g.decisions ++
          [{ agent := "mission_planner"
           , timestamp := env.now
           , decision :=
               "Created optimized mission plan with 99.9% success probability"
           , confidence := 94 / 100 }] } }

/-- Stage 5, `ground_station_agent`: installs the fixed three-station
network and appends its decision.  The phase is not touched. -/
def groundStationAgent (env : Env) (r : RunSt) : RunSt :=
  { r with g :=
      { r.g with
        ground_stations :=
          [ { id := "GS-001", location := "Houston, Texas"
            , coordinates := [297604 / 10000, -953698 / 10000]
            , status := "Active", satellites_connected := 3
            , data_rate := "1 Gbps" }
          , { id := "GS-002", location := "Canberra, Australia"
            , coordinates := [-352809 / 10000, 1491300 / 10000]
            , status := "Active", satellites_connected := 2
            , data_rate := "1 Gbps" }
          , { id := "GS-003", location := "Madrid, Spain"
            , coordinates := [404168 / 10000, -37038 / 10000]
            , status := "Active", satellites_connected := 2
            , data_rate := "1 Gbps" } ]
      , decisions := r.g.decisions ++
          [{ agent := "ground_coordinator"
           , timestamp := env.now
           , decision :=
               "Coordinated global ground station network for optimal coverage"
           , confidence := 96 / 100 }] } }

/-- The per-satellite health loop of the maintenance stage: three uniform
draws per satellite (battery, thermal, communication — the last is drawn
but unused) and one integer draw for the scheduled time when a task is
emitted. -/
def maintLoop (env : Env) :
    List Dict → Nat → Nat → List MaintReq × Nat × Nat
  | [], u, z => ([], u, z)
  | sat :: rest, u, z =>
      let battery := env.randU u
      let thermal := env.randU (u + 1)
      if battery < 80 ∨ thermal < 85 then
        let req : MaintReq :=
          { satellite_id := (dictGet sat "id").getD .nullv
          , issue :=
              if battery < 80 then "Battery degradation" else "Thermal stress"
          , priority := if battery < 75 then "HIGH" else "MEDIUM"
          , scheduled_time := env.nowPlusHours (env.randZ z) }
        let res := maintLoop env rest (u + 3) (z + 1)
        (req :: res.1, res.2)
      else
        let res := maintLoop env rest (u + 3) z
        (res.1, res.2)

/-- Stage 6, `predictive_maintenance_agent`: builds the maintenance
schedule and appends its decision.  The phase is not touched. -/
def predictiveMaintenanceAgent (env : Env) (r : RunSt) : RunSt :=
  let res := maintLoop env r.g.satellites r.u r.z
  { r with
    g := { r.g with
           maintenance_schedule := some
             { timestamp := env.now
             , satellites_analyzed := r.g.satellites.length
             , maintenance_required := res.1
             , predictions := [] }
         , decisions := r.g.decisions ++
             [{ agent := "maintenance_agent"
              , timestamp := env.now
              , decision := "Analyzed " ++
                  toString r.g.satellites.length ++ " satellites, " ++
                  toString res.1.length ++ " require maintenance"
              , confidence := 91 / 100 }] }
  , u := res.2.1
  , z := res.2.2 }

/-- The fixed two-object debris catalog of the debris-monitoring stage. -/
def debrisCatalog : List GDebris :=
  [ { id := "DEB-001", size := "10 cm", velocity := "7.5 km/s"
    , orbit := "LEO", threat_level := "LOW", tracking_accuracy := "95%" }
  , { id := "DEB-002", size := "5 cm", velocity := "7.8 km/s"
    , orbit := "LEO", threat_level := "MEDIUM", tracking_accuracy := "98%" } ]

/-- Stage 7, `space_debris_agent`: installs the debris catalog, appends a
MEDIUM alert when any HIGH/MEDIUM debris is present (DEB-002 always is)
and appends its decision.  The phase is not touched. -/
def spaceDebrisAgent (env : Env) (r : RunSt) : RunSt :=
  let highRisk := debrisCatalog.filter
    (fun d => d.threat_level = "HIGH" ∨ d.threat_level = "MEDIUM")
  { r with g :=
      { r.g with
        space_debris := debrisCatalog
      , alerts :=
          if highRisk.isEmpty then r.g.alerts
          else r.g.alerts ++
            [{ type := "SPACE_DEBRIS"
             , severity := "MEDIUM"
             , message := "Monitoring " ++ toString highRisk.length ++
                 " debris objects with collision risk"
             , timestamp := env.now }]
      , decisions := r.g.decisions ++
          [{ agent := "space_debris_monitor"
           , timestamp := env.now
           , decision := "Monitoring " ++
               toString debrisCatalog.length ++ " debris objects, " ++
               toString highRisk.length ++ " pose collision risk"
           , confidence := 93 / 100 }] } }

/-- The seven stages in the edge order wired by `_build_agent_graph`. -/
def stageList (env : Env) : List (RunSt → RunSt) :=
  [ orbitalMechanicsAgent env
  , satelliteManagementAgent env
  , collisionAvoidanceAgent env
  , missionPlanningAgent env
  , groundStationAgent env
  , predictiveMaintenanceAgent env
  , spaceDebrisAgent env ]

/-- The fresh graph state built at the top of `run_mission`
(`current_phase = "initialization"`, all products empty). -/
def initGraphState (missionId : String) (satellites : List Dict) :
    GraphState :=
  { mission_id := missionId
  , satellites := satellites
  , orbital_data := none
  , collision_threats := []
  , mission_plan := .empty
  , ground_stations := []
  , space_debris := []
  , maintenance_schedule := none
  , current_phase := "initialization"
  , decisions := []
  , alerts := [] }

/-- `run_mission`: execute the seven stages in order on the fresh graph
state. -/
def runMissionGraph (env : Env) (g0 : GraphState) : RunSt :=
  (stageList env).foldl (fun r f => f r) { g := g0, u := 0, z := 0 }

/-- The value of `current_phase` before the first stage and after each of
the seven stages of a run. -/
def graphPhaseTrace (env : Env) (g0 : GraphState) : List String :=
  (((stageList env).scanl (fun r f => f r) { g := g0, u := 0, z := 0 }).map
    (fun r => r.g.current_phase))

/-- Collapse consecutive repeats, leaving the sequence of distinct phases
actually visited in order. -/
def dedupConsec : List String → List String
  | [] => []
  | [x] => [x]
  | x :: y :: rest =>
      if x = y then dedupConsec (y :: rest)
      else x :: dedupConsec (y :: rest)

/-- The distinct mission phases visited, in order, by a failure-free
`run_autonomous_mission` on a fresh mission: the store starts in
INITIALIZATION (same tag as the graph's initial `current_phase`), the
graph phases follow, and `update_mission_phase(MissionPhase.COMPLETED)`
is called after the graph returns. -/
def visitedPhases (env : Env) (missionId : String) (sats : List Dict) :
    List String :=
  dedupConsec
    (graphPhaseTrace env (initGraphState missionId sats) ++ ["completed"])

/-- The CRITICAL alert built in the except-handler of
`run_autonomous_mission` for an exception with text `e`. -/
def errorAlert (e now : String) : Alert :=
  { alert_id := "ERR-001"
  , type := "MISSION_ERROR"
  , level := .critical
  , message := "Mission execution failed: " ++ e
  , satellite_id := none
  , timestamp := now
  , acknowledged := false
  , resolved := false }

/-- `run_autonomous_mission` when an unrecoverable error with text `e` is
raised at stage `k+1` (0-indexed `k`): stages `0..k-1` run to completion
first.  The graph's satellite list is the same Python list object as the
store's (`mission_state["satellites"] = self.state_manager.state["satellites"]`)
and completed stages mutate its elements in place, so the store sees
those mutations.  The handler then sets phase = ERROR, appends the
CRITICAL alert and re-raises the error to the caller (the second
component). -/
def runMissionFail (s : StoreState) (env : Env) (k : Fin 7) (e : String) :
    StoreState × String :=
  let g0 := initGraphState s.mission_id s.satellites
  let rk := ((stageList env).take k).foldl (fun r f => f r)
    { g := g0, u := 0, z := 0 }
  let s1 := { s with satellites := rk.g.satellites }
  let s2 := updateMissionPhase s1 .error env.now
  let s3 := addAlert s2 (errorAlert e env.now) env.now
  (s3, e)

/-- A concrete deterministic environment for evaluating pipeline runs. -/
def envDet : Env :=
  { now := "t"
  , nowPlusHours := fun _ => "t"
  , randU := fun _ => 500
  , randZ := fun _ => 0 }

/-- C4 counterexample: a full failure-free run on a fresh mission visits
only INITIALIZATION, ORBITAL_CALCULATION and COMPLETED — not the claimed
nine-phase linear order.  Only the first stage writes `current_phase`,
no other stage updates any phase, and the orchestrator jumps the store's
phase straight from INITIALIZATION to COMPLETED. -/
theorem mission_phases_not_linear_path :
    visitedPhases envDet "M" [] =
      ["initialization", "orbital_calculation", "completed"] ∧
    visitedPhases envDet "M" [] ≠
      [ "initialization", "orbital_calculation"
      , "constellation_management", "collision_monitoring"
      , "mission_planning", "ground_coordination"
      , "maintenance_analysis", "debris_monitoring", "completed" ] :=
  ⟨rfl, by decide⟩

/-- C4 amended: for every environment and every initial satellite list, a
failure-free `runMission()` on a fresh mission visits exactly the phases
INITIALIZATION, ORBITAL_CALCULATION, COMPLETED, in that order and each
exactly once: the first pipeline stage sets the phase to
ORBITAL_CALCULATION, none of the six later stages writes a phase, and
the orchestrator sets COMPLETED after the graph returns, so the
intermediate phases CONSTELLATION_MANAGEMENT through DEBRIS_MONITORING
are never entered. -/
theorem visitedPhases_eq (env : Env) (missionId : String)
    (sats : List Dict) :
    visitedPhases env missionId sats =
      ["initialization", "orbital_calculation", "completed"] := rfl

/-- C5: when stage `k+1` of the pipeline raises an unrecoverable error,
the orchestrator's handler sets the mission phase to ERROR, appends
exactly one alert — the CRITICAL `ERR-001` alert whose message quotes the
failure — re-surfaces the error text to the caller, and rolls nothing
back: the store keeps the in-place satellite mutations committed by the
completed stages and every other store field keeps its value from before
the run. -/
theorem stage_failure_handling (s : StoreState) (env : Env) (k : Fin 7)
    (e : String) :
    (runMissionFail s env k e).1.mission_phase = .enum .error ∧
    (runMissionFail s env k e).1.alerts =
      s.alerts ++ [(errorAlert e env.now).toDict] ∧
    (runMissionFail s env k e).1.alerts.length = s.alerts.length + 1 ∧
    (errorAlert e env.now).level = .critical ∧
    (errorAlert e env.now).message = "Mission execution failed: " ++ e ∧
    (runMissionFail s env k e).2 = e ∧
    (runMissionFail s env k e).1.satellites =
      (((stageList env).take k).foldl
        (fun (r : RunSt) (f : RunSt → RunSt) => f r)
        { g := initGraphState s.mission_id s.satellites
        , u := 0, z := 0 }).g.satellites ∧
    (runMissionFail s env k e).1.mission_id = s.mission_id ∧
    (runMissionFail s env k e).1.satellite_count = s.satellite_count ∧
    (runMissionFail s env k e).1.orbital_data = s.orbital_data ∧
    (runMissionFail s env k e).1.collision_threats =
      s.collision_threats ∧
    (runMissionFail s env k e).1.mission_plan = s.mission_plan ∧
    (runMissionFail s env k e).1.ground_stations = s.ground_stations ∧
    (runMissionFail s env k e).1.maintenance_tasks =
      s.maintenance_tasks ∧
    (runMissionFail s env k e).1.space_debris = s.space_debris ∧
    (runMissionFail s env k e).1.decisions = s.decisions := by
  refine ⟨rfl, rfl, ?_, rfl, rfl, rfl, rfl, rfl, rfl, rfl, rfl, rfl,
    rfl, rfl, rfl, rfl⟩
  simp [runMissionFail, addAlert, updateMissionPhase]
